import Mathlib

/-!
Verification development for the sysohub single-node IoT gateway tool.

The first part embeds the provisioning script (`scripts/sysohub.py`):
the desired-state configuration, the managed file system and service
state, the fingerprint-compare-and-replace primitive
(`update_file_if_changed`), the per-subsystem installers in their
non-interactive (`setup`) mode, and the top-level `setup` operation.
File contents are modelled by the inductive type `Str`; two contents
are byte-equal iff the `Str` values are equal, which matches the
specification's invariant that the SHA-256 fingerprints of two byte
strings agree iff the byte strings agree.  Shell effects are recorded
as an explicit action trace.

The second part embeds the dashboard process (`templates/flask_app.py`):
the bounded per-key telemetry store mutated by `on_message`, the lock
acquisition/release structure of the MQTT callback as an event trace,
and the retrying MQTT connector.

The third part embeds the chunked file-hash path of `file_hash`
against the in-memory digest path, parametrically in the digest
function.
-/

namespace Sysohub

/-- Desired-state configuration (the `project` section of `config.yml`),
restricted to the fields read by the embedded code paths. -/
structure Config where
  hostname : String
  mqttUsername : String
  mqttPassword : String
  vmPort : String
  dashPort : String
deriving DecidableEq

/-- Abstract byte content of a managed file.  Distinct constructors
denote byte-distinct contents: `newline s` is `s` with the trailing
newline that `echo ... | tee` appends, `mosqHashed s` is the result of
`mosquitto_passwd -U` rewriting `s`, `rendered t cfg` is the Jinja2
rendering of template `t` against `cfg`, `vmUnit port` /
`noderedUnit` / `dashUnit` are the f-string service unit texts, and
`daemonConfLine` is the literal `DAEMON_CONF=...` line.  Equality of
`Str` values models byte equality of contents, hence (by the
collision-resistance invariant of the specification's Fingerprint data
model) equality of SHA-256 fingerprints. -/
inductive Str where
  | rendered (template : String) (cfg : Config)
  | daemonConfLine
  | passwdLine (user pass : String)
  | newline (s : Str)
  | mosqHashed (s : Str)
  | vmUnit (port : String)
  | noderedUnit
  | dashUnit
  | flowsContent
  | indexBad
  | indexFixed
deriving DecidableEq

/-- One externally visible effect of the provisioning script: a shell
command or file-system mutation, recorded in order of execution. -/
inductive Act where
  | aptUpgrade
  | aptInstall (pkg : String)
  | unmaskSvc (s : String)
  | stopSvc (s : String)
  | startSvc (s : String)
  | restartSvc (s : String)
  | enableSvc (s : String)
  | disableSvc (s : String)
  | daemonReload
  | writeFile (path : String) (c : Str)
  | teeFile (path : String) (c : Str)
  | removeFile (path : String)
  | removeTree (path : String)
  | chownFile (path owner : String)
  | chmodFile (path mode : String)
  | mosquittoPasswdHash (path : String)
  | setHostname (h : String)
  | sedHosts (h : String)
  | sysctlIpForward
  | downloadVMTar
  | extractVMTar
  | chmodExec (path : String)
  | useraddVM
  | mkdirAct (path : String)
  | npmInstallVMNodes
  | runNodeRedInstaller
  | abortConfigNotFound
  | reboot
deriving DecidableEq

/-- Machine state visible to the provisioning script: managed file
contents, owners and permission modes, installed packages, enabled and
running services, the `which node-red` / VictoriaMetrics binary /
`id victoria-metrics` probes, the (stripped) `/etc/hostname` content,
and the `net.ipv4.ip_forward` sysctl. -/
structure SysState where
  files : List (String × Str)
  owners : List (String × String)
  modes : List (String × String)
  pkgs : List String
  enabled : List String
  running : List String
  nodeRed : Bool
  vmBinary : Bool
  vmUser : Bool
  hostnameSet : Option String
  ipForward : Bool
deriving DecidableEq

/-- Lookup in an association list, first match wins. -/
def alGet {α : Type} : List (String × α) → String → Option α
  | [], _ => none
  | (k, v) :: rest, key => if k = key then some v else alGet rest key

/-- Shadowing update of an association list. -/
def alSet {α : Type} (l : List (String × α)) (k : String) (v : α) :
    List (String × α) :=
  (k, v) :: l

/-- Remove every binding of a key from an association list. -/
def alRemove {α : Type} (l : List (String × α)) (k : String) :
    List (String × α) :=
  l.filter (fun e => decide (e.1 ≠ k))

@[simp] theorem alGet_nil {α : Type} (key : String) :
    alGet ([] : List (String × α)) key = none := rfl

@[simp] theorem alGet_cons {α : Type} (k key : String) (v : α)
    (rest : List (String × α)) :
    alGet ((k, v) :: rest) key = if k = key then some v else alGet rest key :=
  rfl

@[simp] theorem alSet_def {α : Type} (l : List (String × α)) (k : String)
    (v : α) : alSet l k v = (k, v) :: l := rfl

@[simp] theorem alGet_remove {α : Type} (l : List (String × α))
    (k key : String) :
    alGet (alRemove l k) key = if k = key then none else alGet l key := by
  induction l with
  | nil => simp [alRemove]
  | cons e rest ih =>
    obtain ⟨ek, ev⟩ := e
    by_cases hek : ek = k
    · subst hek
      by_cases hkey : ek = key
      · subst hkey
        simp [alRemove, List.filter] at ih ⊢
        simpa using ih
      · simp [alRemove, List.filter, hkey] at ih ⊢
        simpa [hkey] using ih
    · by_cases hkey : ek = key
      · subst hkey
        simp [alRemove, List.filter, hek] at ih ⊢
        have : ¬ k = ek := fun h => hek h.symm
        simp [this, hek]
      · simp [alRemove, List.filter, hek, hkey] at ih ⊢
        simpa [hkey] using ih

/-- Add a service/package name to a set-like list, keeping it duplicate
free (a no-op when already present, matching the idempotent shell
commands). -/
def addS (s : List String) (x : String) : List String :=
  if x ∈ s then s else x :: s

/-- Remove a name from a set-like list. -/
def remS (s : List String) (x : String) : List String :=
  s.filter (fun y => decide (y ≠ x))

@[simp] theorem mem_addS (s : List String) (x y : String) :
    y ∈ addS s x ↔ y = x ∨ y ∈ s := by
  unfold addS
  by_cases h : x ∈ s
  · simp only [if_pos h]
    constructor
    · exact fun hy => Or.inr hy
    · rintro (rfl | hy)
      · exact h
      · exact hy
  · simp [if_neg h]

@[simp] theorem mem_remS (s : List String) (x y : String) :
    y ∈ remS s x ↔ y ∈ s ∧ y ≠ x := by
  simp [remS]

/-- The invoking user determined from `SUDO_USER` / `os.getlogin()`. -/
def sysUser : String := "pi"

def scriptPath : String := "/home/pi/sysohub/scripts/sysohub.py"
def dhcpcdPath : String := "/etc/dhcpcd.conf"
def hostapdConfPath : String := "/etc/hostapd/hostapd.conf"
def dnsmasqConfPath : String := "/etc/dnsmasq.conf"
def defaultHostapdPath : String := "/etc/default/hostapd"
def mosqConfPath : String := "/etc/mosquitto/mosquitto.conf"
def mosqPasswdPath : String := "/etc/mosquitto/passwd"
def vmBinaryPath : String := "/usr/local/bin/victoria-metrics"
def vmYmlPath : String := "/etc/victoria-metrics.yml"
def vmUnitPath : String := "/etc/systemd/system/victoria-metrics.service"
def noderedUnitPath : String := "/lib/systemd/system/nodered.service"
def nodeRedDirPath : String := "/home/pi/.node-red"
def flowsPath : String := "/home/pi/.node-red/flows.json"
def flaskAppPath : String := "/home/pi/sysohub/flask_app.py"
def indexHtmlPath : String := "/home/pi/sysohub/static/index.html"
def dashUnitPath : String := "/etc/systemd/system/sysohub-dashboard.service"

/-- `update_file_if_changed(template_name, dest, context, temp_dir)`:
render the template into a temporary file, compare the SHA-256
fingerprint of the temporary file with the fingerprint of the
destination (`None` when the destination is missing), and on mismatch
move the temporary file over the destination and set owner `root:root`
and mode `644`; on match leave the destination untouched.  Returns the
updated state, the action trace, and the changed flag. -/
def update_file_if_changed (cfg : Config) (templateName dest : String)
    (st : SysState) : SysState × List Act × Bool :=
  let cand := Str.rendered templateName cfg
  if alGet st.files dest = some cand then
    (st, [], false)
  else
    ({ st with
        files := alSet st.files dest cand,
        owners := alSet st.owners dest "root",
        modes := alSet st.modes dest "644" },
     [Act.writeFile dest cand, Act.chownFile dest "root",
      Act.chmodFile dest "644"],
     true)

/-- The `systemctl enable` block repeated before each service start
decision: enable only when `systemctl is-enabled` is not `enabled`. -/
def ensure_enabled (svc : String) (st : SysState) : SysState × List Act :=
  if svc ∈ st.enabled then (st, [])
  else ({ st with enabled := addS st.enabled svc }, [Act.enableSvc svc])

/-- The service block of `setup_wifi_ap` and `install_mosquitto`:
`if is_service_running(s) and not configs_changed: skip else: systemctl
start s`. -/
def ensure_running_skip_unchanged (svc : String) (changed : Bool)
    (st : SysState) : SysState × List Act :=
  if svc ∈ st.running ∧ ¬changed then (st, [])
  else ({ st with running := addS st.running svc }, [Act.startSvc svc])

/-- The service block of `install_victoria_metrics`: `if
is_service_running(s): skip else: systemctl start s` (the config
changed flag is not consulted at all). -/
def ensure_running_plain (svc : String) (st : SysState) :
    SysState × List Act :=
  if svc ∈ st.running then (st, [])
  else ({ st with running := addS st.running svc }, [Act.startSvc svc])

/-- The service block of `install_node_red` and `install_dashboard`:
`if is_service_running(s): systemctl restart s else: systemctl start s`
(restart whenever running, regardless of any change detection). -/
def ensure_running_restart_always (svc : String) (st : SysState) :
    SysState × List Act :=
  if svc ∈ st.running then (st, [Act.restartSvc svc])
  else ({ st with running := addS st.running svc }, [Act.startSvc svc])

/-- The ensure-running decision as claimed by the specification
(`ensure_running(name, force_restart)`): if not running, start; if
running and a change was detected, restart; otherwise do nothing.
Stated from the specification's words, to be compared with the
decisions the source code actually implements. -/
def triStateSpec (svc : String) (running changed : Bool) : List Act :=
  if ¬running then [Act.startSvc svc]
  else if changed then [Act.restartSvc svc]
  else []

/-- `if is_package_installed(pkg): skip else: apt install pkg`. -/
def ensure_pkg (pkg : String) (st : SysState) : SysState × List Act :=
  if pkg ∈ st.pkgs then (st, [])
  else ({ st with pkgs := addS st.pkgs pkg }, [Act.aptInstall pkg])

/-- The `systemctl unmask` + `systemctl stop` pair `setup_wifi_ap` runs
for each of its services before materializing configuration. -/
def unmask_stop (svc : String) (st : SysState) : SysState × List Act :=
  ({ st with running := remS st.running svc },
   [Act.unmaskSvc svc, Act.stopSvc svc])

/-- `setup_wifi_ap(config, temp_dir)` in non-interactive mode: install
hostapd/dnsmasq/avahi-daemon if missing, unmask and stop them,
materialize the three network configuration templates (aggregating
`configs_changed`), rewrite `/etc/default/hostapd` via `tee` when its
hash differs from the bare `DAEMON_CONF` line, set the hostname and IP
forwarding when drifted, then enable each service and start it unless
it is running and no config changed.  Returns (state, trace,
`configs_changed`). -/
def setup_wifi_ap (cfg : Config) (st0 : SysState) :
    SysState × List Act × Bool :=
  let s1 := ensure_pkg "hostapd" st0
  let s2 := ensure_pkg "dnsmasq" s1.1
  let s3 := ensure_pkg "avahi-daemon" s2.1
  let s4 := unmask_stop "hostapd" s3.1
  let s5 := unmask_stop "dnsmasq" s4.1
  let s6 := unmask_stop "avahi-daemon" s5.1
  let u1 := update_file_if_changed cfg "dhcpcd.conf.j2" dhcpcdPath s6.1
  let u2 := update_file_if_changed cfg "hostapd.conf.j2" hostapdConfPath u1.1
  let u3 := update_file_if_changed cfg "dnsmasq.conf.j2" dnsmasqConfPath u2.1
  let configsChanged := u1.2.2 || u2.2.2 || u3.2.2
  let st7 := u3.1
  let d : SysState × List Act :=
    if alGet st7.files defaultHostapdPath = some Str.daemonConfLine then
      (st7, [])
    else
      ({ st7 with
          files := alSet st7.files defaultHostapdPath
            (Str.newline Str.daemonConfLine) },
       [Act.teeFile defaultHostapdPath (Str.newline Str.daemonConfLine)])
  let h : SysState × List Act :=
    if d.1.hostnameSet = some cfg.hostname then (d.1, [])
    else ({ d.1 with hostnameSet := some cfg.hostname },
          [Act.setHostname cfg.hostname, Act.sedHosts cfg.hostname])
  let f : SysState × List Act :=
    if h.1.ipForward then (h.1, [])
    else ({ h.1 with ipForward := true }, [Act.sysctlIpForward])
  let e1 := ensure_enabled "hostapd" f.1
  let r1 := ensure_running_skip_unchanged "hostapd" configsChanged e1.1
  let e2 := ensure_enabled "dnsmasq" r1.1
  let r2 := ensure_running_skip_unchanged "dnsmasq" configsChanged e2.1
  let e3 := ensure_enabled "avahi-daemon" r2.1
  let r3 := ensure_running_skip_unchanged "avahi-daemon" configsChanged e3.1
  (r3.1,
   s1.2 ++ s2.2 ++ s3.2 ++ s4.2 ++ s5.2 ++ s6.2 ++ u1.2.1 ++ u2.2.1 ++ u3.2.1
     ++ d.2 ++ h.2 ++ f.2 ++ e1.2 ++ r1.2 ++ e2.2 ++ r2.2 ++ e3.2 ++ r3.2,
   configsChanged)

/-- `install_mosquitto(config, temp_dir)` in non-interactive mode:
install the broker if missing, materialize `mosquitto.conf`
(`configs_changed`), rewrite the password file via `tee` +
`mosquitto_passwd -U` when its hash differs from the bare
`user:password` line, enable, and start unless running and unchanged.
The password-file rewrite does not feed `configs_changed`. -/
def install_mosquitto (cfg : Config) (st0 : SysState) :
    SysState × List Act × Bool :=
  let p : SysState × List Act :=
    if "mosquitto" ∈ st0.pkgs then (st0, [])
    else ({ st0 with
            pkgs := addS (addS st0.pkgs "mosquitto") "mosquitto-clients" },
          [Act.aptInstall "mosquitto", Act.aptInstall "mosquitto-clients"])
  let u := update_file_if_changed cfg "mosquitto.conf.j2" mosqConfPath p.1
  let configsChanged := u.2.2
  let st1 := u.1
  let passwdCand := Str.passwdLine cfg.mqttUsername cfg.mqttPassword
  let w : SysState × List Act :=
    if alGet st1.files mosqPasswdPath = some passwdCand then (st1, [])
    else
      ({ st1 with
          files := alSet st1.files mosqPasswdPath
            (Str.mosqHashed (Str.newline passwdCand)) },
       [Act.teeFile mosqPasswdPath (Str.newline passwdCand),
        Act.mosquittoPasswdHash mosqPasswdPath])
  let e := ensure_enabled "mosquitto" w.1
  let r := ensure_running_skip_unchanged "mosquitto" configsChanged e.1
  (r.1, p.2 ++ u.2.1 ++ w.2 ++ e.2 ++ r.2, configsChanged)

/-- `install_victoria_metrics(config, temp_dir)` in non-interactive
mode: download/extract the binary only when it is not already present
and executable, materialize the yml config (whose changed flag the
code discards), create the service user once, re-issue the ownership
commands unconditionally, rewrite the unit file on hash mismatch (with
a daemon reload), enable, and start only when not running (a config
change never triggers a restart here).  Returns (state, trace, yml
changed flag, unit changed flag). -/
def install_victoria_metrics (cfg : Config) (st0 : SysState) :
    SysState × List Act × Bool × Bool :=
  let dl : SysState × List Act :=
    if st0.vmBinary then (st0, [])
    else ({ st0 with vmBinary := true },
          [Act.removeFile vmBinaryPath,
           Act.removeFile "/usr/local/bin/victoria-metrics-prod",
           Act.mkdirAct "/usr/local/bin",
           Act.chmodFile "/usr/local/bin" "755",
           Act.downloadVMTar, Act.extractVMTar,
           Act.chmodExec vmBinaryPath,
           Act.removeFile "/tmp/vm.tar.gz"])
  let u := update_file_if_changed cfg "victoria_metrics.yml.j2" vmYmlPath dl.1
  let st1 := u.1
  let usr : SysState × List Act :=
    if st1.vmUser then (st1, []) else ({ st1 with vmUser := true }, [Act.useraddVM])
  let own : SysState × List Act :=
    ({ usr.1 with owners := alSet usr.1.owners vmBinaryPath "victoria-metrics" },
     [Act.chownFile vmBinaryPath "victoria-metrics",
      Act.mkdirAct "/var/lib/victoria-metrics",
      Act.chownFile "/var/lib/victoria-metrics" "victoria-metrics"])
  let unitCand := Str.vmUnit cfg.vmPort
  let w : SysState × List Act × Bool :=
    if alGet own.1.files vmUnitPath = some unitCand then (own.1, [], false)
    else ({ own.1 with files := alSet own.1.files vmUnitPath unitCand },
          [Act.writeFile vmUnitPath unitCand, Act.daemonReload], true)
  let e := ensure_enabled "victoria-metrics" w.1
  let r := ensure_running_plain "victoria-metrics" e.1
  (r.1, dl.2 ++ u.2.1 ++ usr.2 ++ own.2 ++ w.2.1 ++ e.2 ++ r.2,
   u.2.2, w.2.2)

/-- `install_node_red(config, temp_dir)` in non-interactive mode: when
`which node-red` succeeds, stop and disable the service, delete its
unit file, and remove the whole installation (including the user's
`.node-red` directory and `flows.json`); then always run the official
installer, fix directory ownership, install the VictoriaMetrics nodes,
rewrite `flows.json` unconditionally, rewrite the unit file on hash
mismatch, enable, and restart whenever running (otherwise start).
Returns (state, trace, unit changed flag). -/
def install_node_red (_cfg : Config) (st0 : SysState) :
    SysState × List Act × Bool :=
  let cl : SysState × List Act :=
    if st0.nodeRed then
      ({ st0 with
          running := remS st0.running "nodered",
          enabled := remS st0.enabled "nodered",
          files := alRemove (alRemove st0.files noderedUnitPath) flowsPath,
          nodeRed := false },
       [Act.stopSvc "nodered", Act.disableSvc "nodered",
        Act.removeFile noderedUnitPath, Act.daemonReload,
        Act.removeTree "/usr/bin/node-red",
        Act.removeTree "/usr/local/bin/node-red",
        Act.removeTree "/root/.node-red",
        Act.removeTree nodeRedDirPath])
    else (st0, [])
  let inst : SysState × List Act :=
    ({ cl.1 with nodeRed := true }, [Act.runNodeRedInstaller])
  let dirs : SysState × List Act :=
    ({ inst.1 with owners := alSet inst.1.owners nodeRedDirPath sysUser },
     [Act.mkdirAct nodeRedDirPath, Act.chownFile nodeRedDirPath sysUser,
      Act.chmodFile nodeRedDirPath "u+rw", Act.npmInstallVMNodes])
  let fl : SysState × List Act :=
    ({ dirs.1 with
        files := alSet dirs.1.files flowsPath Str.flowsContent,
        owners := alSet dirs.1.owners flowsPath sysUser,
        modes := alSet dirs.1.modes flowsPath "644" },
     [Act.writeFile flowsPath Str.flowsContent,
      Act.chownFile flowsPath sysUser, Act.chmodFile flowsPath "644"])
  let w : SysState × List Act × Bool :=
    if alGet fl.1.files noderedUnitPath = some Str.noderedUnit then
      (fl.1, [], false)
    else ({ fl.1 with files := alSet fl.1.files noderedUnitPath Str.noderedUnit },
          [Act.writeFile noderedUnitPath Str.noderedUnit, Act.daemonReload],
          true)
  let e := ensure_enabled "nodered" w.1
  let r := ensure_running_restart_always "nodered" e.1
  (r.1, cl.2 ++ inst.2 ++ dirs.2 ++ fl.2 ++ w.2.1 ++ e.2 ++ r.2, w.2.2)

/-- `install_dashboard(config, temp_dir)` in non-interactive mode:
install the Python dependencies unconditionally, materialize
`flask_app.py` (re-owning it to the invoking user when it changed),
patch `index.html` when it contains the broken Jinja2 filter, rewrite
the unit file on hash mismatch, enable, and restart whenever running
(otherwise start).  Returns (state, trace, flask changed flag, unit
changed flag). -/
def install_dashboard (cfg : Config) (st0 : SysState) :
    SysState × List Act × Bool × Bool :=
  let deps : SysState × List Act :=
    ({ st0 with pkgs := addS (addS (addS (addS (addS (addS st0.pkgs
          "python3-flask") "python3-socketio") "python3-paho-mqtt")
          "python3-requests") "python3-eventlet") "python3-psutil" },
     [Act.aptInstall "python3-flask", Act.aptInstall "python3-socketio",
      Act.aptInstall "python3-paho-mqtt", Act.aptInstall "python3-requests",
      Act.aptInstall "python3-eventlet", Act.aptInstall "python3-psutil"])
  let u := update_file_if_changed cfg "flask_app.py" flaskAppPath deps.1
  let post : SysState × List Act :=
    if u.2.2 then
      ({ u.1 with owners := alSet u.1.owners flaskAppPath sysUser,
                  modes := alSet u.1.modes flaskAppPath "644" },
       [Act.chownFile flaskAppPath sysUser, Act.chmodFile flaskAppPath "644"])
    else (u.1, [])
  let ix : SysState × List Act :=
    match alGet post.1.files indexHtmlPath with
    | some Str.indexBad =>
        ({ post.1 with
            files := alSet post.1.files indexHtmlPath Str.indexFixed,
            owners := alSet post.1.owners indexHtmlPath sysUser,
            modes := alSet post.1.modes indexHtmlPath "644" },
         [Act.writeFile indexHtmlPath Str.indexFixed,
          Act.chownFile indexHtmlPath sysUser,
          Act.chmodFile indexHtmlPath "644"])
    | _ => (post.1, [])
  let w : SysState × List Act × Bool :=
    if alGet ix.1.files dashUnitPath = some Str.dashUnit then (ix.1, [], false)
    else ({ ix.1 with files := alSet ix.1.files dashUnitPath Str.dashUnit },
          [Act.writeFile dashUnitPath Str.dashUnit, Act.daemonReload], true)
  let e := ensure_enabled "sysohub-dashboard" w.1
  let r := ensure_running_restart_always "sysohub-dashboard" e.1
  (r.1, deps.2 ++ u.2.1 ++ post.2 ++ ix.2 ++ w.2.1 ++ e.2 ++ r.2,
   u.2.2, w.2.2)

/-- The per-subsystem changed flags a converge run produces: the two
aggregated `configs_changed` variables and the individual
fingerprint-compare decisions for the remaining materialized files. -/
structure Flags where
  wifiChanged : Bool
  mosqChanged : Bool
  vmYmlChanged : Bool
  vmUnitChanged : Bool
  noderedUnitChanged : Bool
  flaskChanged : Bool
  dashUnitChanged : Bool
deriving DecidableEq

/-- The subsystem iteration of the `setup` operation, in its fixed
order: WiFi AP, Mosquitto, VictoriaMetrics, Node-RED, dashboard. -/
def converge (cfg : Config) (st0 : SysState) : SysState × List Act × Flags :=
  let w := setup_wifi_ap cfg st0
  let m := install_mosquitto cfg w.1
  let v := install_victoria_metrics cfg m.1
  let n := install_node_red cfg v.1
  let d := install_dashboard cfg n.1
  (d.1, w.2.1 ++ m.2.1 ++ v.2.1 ++ n.2.1 ++ d.2.1,
   { wifiChanged := w.2.2, mosqChanged := m.2.2,
     vmYmlChanged := v.2.2.1, vmUnitChanged := v.2.2.2,
     noderedUnitChanged := n.2.2,
     flaskChanged := d.2.2.1, dashUnitChanged := d.2.2.2 })

/-- The top-level `setup` command: set the owner and mode of the
script itself, then load the configuration (aborting with the
config-not-found error when the file is absent, modelled by the
`none` argument), then upgrade the system packages, converge every
subsystem, and reboot.  Returns (state, trace, success flag). -/
def setup (cfgLoaded : Option Config) (st0 : SysState) :
    SysState × List Act × Bool :=
  let st1 := { st0 with
      owners := alSet st0.owners scriptPath sysUser,
      modes := alSet st0.modes scriptPath "755" }
  let acts0 := [Act.chownFile scriptPath sysUser,
                Act.chmodFile scriptPath "755"]
  match cfgLoaded with
  | none => (st1, acts0 ++ [Act.abortConfigNotFound], false)
  | some cfg =>
    let c := converge cfg st1
    (c.1, acts0 ++ [Act.aptUpgrade] ++ c.2.1 ++ [Act.reboot], true)

/-- A machine with nothing installed, nothing running, and no managed
file present. -/
def stEmpty : SysState :=
  { files := [], owners := [], modes := [], pkgs := [], enabled := [],
    running := [], nodeRed := false, vmBinary := false, vmUser := false,
    hostnameSet := none, ipForward := false }

/-- A concrete desired-state configuration used by the closed
counterexample and witness theorems. -/
def cfg0 : Config :=
  { hostname := "plantomio", mqttUsername := "plantomioX1",
    mqttPassword := "plantomioX1Pass", vmPort := "8428",
    dashPort := "5000" }

end Sysohub

namespace FlaskApp

open Sysohub (alGet alSet)

/-- A Python value occurring in a decoded telemetry payload.  `num` is
a JSON number, `numStr` a string that Python's `float()` accepts,
`str` a string it rejects, `null` the JSON null.  Numeric values are
modelled by integers; no claim depends on fractional arithmetic. -/
inductive PyVal where
  | num (n : Int)
  | numStr (n : Int)
  | str (s : String)
  | null
deriving DecidableEq

/-- Python's `float(value)` as used in the ingestion loop: defined on
numbers and numeric strings, raising (modelled by `none`) otherwise. -/
def pyFloat : PyVal → Option Int
  | .num n => some n
  | .numStr n => some n
  | _ => none

/-- One telemetry point `{"timestamp": ..., "value": ...}`; the
timestamp is stored exactly as it appeared in the payload. -/
structure Point where
  ts : PyVal
  val : Int
deriving DecidableEq

/-- The in-memory data store: metric key to series buffer. -/
abbrev Store := List (String × List Point)

def MAX_POINTS : Nat := 50

/-- Append a point at the tail of a series buffer and pop the head
when the buffer then exceeds `MAX_POINTS` (lines 60-62 of
`flask_app.py`). -/
def pushPoint (b : List Point) (p : Point) : List Point :=
  let b2 := b ++ [p]
  if MAX_POINTS < b2.length then b2.drop 1 else b2

/-- The metric keys the ingestion handler recognizes. -/
def recognizedKeys : List String :=
  ["temperature", "distance", "pH", "ORP", "TDS", "EC"]

/-- Append one value to one key's buffer, creating the buffer when the
key is new. -/
def storeAppend (store : Store) (k : String) (ts : PyVal) (v : Int) :
    Store :=
  alSet store k (pushPoint ((alGet store k).getD []) ⟨ts, v⟩)

/-- An event in the execution trace of the MQTT message callback. -/
inductive Ev where
  | acquire
  | release
  | mutate (k : String)
  | emitUpdate
  | printErr
deriving DecidableEq

/-- The `for key, value in payload.items()` loop of `on_message`:
recognized keys are appended (recording a mutation event), a value
`float()` rejects raises out of the loop (third component true),
leaving the mutations made so far in place. -/
def ingestLoop (ts : PyVal) : List (String × PyVal) → Store →
    Store × List Ev × Bool
  | [], store => (store, [], false)
  | (k, v) :: rest, store =>
    if k ∈ recognizedKeys then
      match pyFloat v with
      | some x =>
        let r := ingestLoop ts rest (storeAppend store k ts x)
        (r.1, Ev.mutate k :: r.2.1, r.2.2)
      | none => (store, [], true)
    else ingestLoop ts rest store

/-- A decoded incoming MQTT message: `badJson` when `json.loads`
raises, `nonDict` when the decoded value is not an object (so
`payload.get` raises), `dict` otherwise. -/
inductive Msg where
  | badJson
  | nonDict
  | dict (entries : List (String × PyVal))
deriving DecidableEq

/-- `on_message(client, userdata, msg)`: decode the payload, default a
missing timestamp to `0`, and under the exclusive lock append every
recognized metric and emit the update to the connected clients; any
exception is caught and printed (the lock being released by the `with`
block first).  Returns the new store and the event trace. -/
def on_message (store : Store) (msg : Msg) : Store × List Ev :=
  match msg with
  | .badJson => (store, [Ev.printErr])
  | .nonDict => (store, [Ev.printErr])
  | .dict entries =>
    let ts := (alGet entries "timestamp").getD (PyVal.num 0)
    let r := ingestLoop ts entries store
    if r.2.2 then (r.1, Ev.acquire :: r.2.1 ++ [Ev.release, Ev.printErr])
    else (r.1, Ev.acquire :: r.2.1 ++ [Ev.emitUpdate, Ev.release])

/-- Scan a trace keeping the lock depth; true when some broadcast
event occurs at positive depth. -/
def lockHeldAtEmit : Nat → List Ev → Bool
  | _, [] => false
  | depth, Ev.acquire :: rest => lockHeldAtEmit (depth + 1) rest
  | depth, Ev.release :: rest => lockHeldAtEmit (depth - 1) rest
  | depth, Ev.emitUpdate :: rest =>
    if 0 < depth then true else lockHeldAtEmit depth rest
  | depth, Ev.mutate _ :: rest => lockHeldAtEmit depth rest
  | depth, Ev.printErr :: rest => lockHeldAtEmit depth rest

/-- True when the trace broadcasts to the observers while the data
lock is held. -/
def emitWhileLocked (evs : List Ev) : Bool := lockHeldAtEmit 0 evs

/-- The retry loop of `connect_mqtt_with_retry`, abstracted over which
attempt numbers succeed (`succ`).  Arguments: current attempt index,
current backoff, remaining attempts.  Returns (connected, sleep
durations in order, attempts made).  On a failed attempt that is not
the last, the loop sleeps for `backoff` and doubles it. -/
def connectLoop (succ : Nat → Bool) : Nat → Nat → Nat → Bool × List Nat × Nat
  | _, _, 0 => (false, [], 0)
  | attempt, backoff, remaining + 1 =>
    if succ attempt then (true, [], 1)
    else if remaining = 0 then (false, [], 1)
    else
      let r := connectLoop succ (attempt + 1) (backoff * 2) remaining
      (r.1, backoff :: r.2.1, r.2.2 + 1)

/-- `connect_mqtt_with_retry()` with the source's constants:
`retries = 5`, initial `backoff = 1`. -/
def connect_mqtt_with_retry (succ : Nat → Bool) : Bool × List Nat × Nat :=
  connectLoop succ 0 1 5

/-- A top-level step of the dashboard process under `__main__`. -/
inductive DashAct where
  | printNoMqtt
  | serveForever
deriving DecidableEq

/-- The `__main__` block: when the connector returned no client, print
the degraded-mode notice; in every case start the WSGI server. -/
def dashboardMain (connected : Bool) : List DashAct :=
  (if connected then [] else [DashAct.printNoMqtt]) ++
    [DashAct.serveForever]

end FlaskApp

namespace Fingerprint

/-- An on-disk file as the fingerprinting code sees it: byte content
plus the metadata (`mtime`, permission mode) that `file_hash` never
reads. -/
structure DiskFile where
  content : List Nat
  mtime : Nat
  mode : Nat
deriving DecidableEq

/-- `hasher.update(chunk)`: a SHA-256 hasher over the bytes fed so
far; feeding a chunk appends it, and the final digest is the digest
function applied to everything fed. -/
def updateHasher (acc chunk : List Nat) : List Nat := acc ++ chunk

/-- Split bytes into successive chunks of 4096, as
`iter(lambda: f.read(4096), b"")` yields them; the first argument is
recursion fuel, instantiated with the byte count. -/
def chunksAux : Nat → List Nat → List (List Nat)
  | 0, _ => []
  | _, [] => []
  | fuel + 1, b :: bs =>
    ((b :: bs).take 4096) :: chunksAux fuel ((b :: bs).drop 4096)

def chunks4096 (bs : List Nat) : List (List Nat) :=
  chunksAux bs.length bs

/-- `file_hash(file_path)`: `None` for a missing file, otherwise the
digest of the file streamed through the hasher in 4096-byte chunks.
Parametric in the digest function `hash` (SHA-256 itself is the
external `hashlib` collaborator). -/
def file_hash {D : Type} (hash : List Nat → D) :
    Option DiskFile → Option D
  | none => none
  | some f => some (hash ((chunks4096 f.content).foldl updateHasher []))

/-- The in-memory path `hashlib.sha256(content).hexdigest()` used for
rendered candidates. -/
def memory_hash {D : Type} (hash : List Nat → D) (content : List Nat) :
    D :=
  hash content

theorem chunksAux_join :
    ∀ (fuel : Nat) (bs : List Nat), bs.length ≤ fuel →
      (chunksAux fuel bs).flatten = bs := by
  intro fuel
  induction fuel with
  | zero =>
    intro bs h
    have : bs = [] := List.eq_nil_of_length_eq_zero (Nat.le_zero.mp h)
    simp [this, chunksAux]
  | succ n ih =>
    intro bs h
    cases bs with
    | nil => simp [chunksAux]
    | cons b rest =>
      simp only [List.length_cons] at h
      have hlen : ((b :: rest).drop 4096).length ≤ n := by
        simp only [List.length_drop, List.length_cons]
        omega
      simp only [chunksAux, List.flatten_cons, ih _ hlen]
      exact List.take_append_drop 4096 (b :: rest)

theorem foldl_updateHasher (L : List (List Nat)) :
    ∀ acc : List Nat, L.foldl updateHasher acc = acc ++ L.flatten := by
  induction L with
  | nil => intro acc; simp
  | cons c rest ih =>
    intro acc
    simp [List.foldl_cons, updateHasher, ih, List.flatten_cons,
      List.append_assoc]

end Fingerprint

open Sysohub FlaskApp Fingerprint

/-- Claim C5: for every existing file, the chunked streaming file
fingerprint (`file_hash`, reading 4096-byte chunks into the hasher)
equals the in-memory digest of the file's full byte content, for any
digest function; hence two files with byte-identical content have
equal fingerprints regardless of modification time or permission
mode. -/
theorem file_hash_stream_agrees_with_memory_hash {D : Type}
    (hash : List Nat → D) :
    (∀ f : DiskFile,
       file_hash hash (some f) = some (memory_hash hash f.content)) ∧
    (∀ f g : DiskFile, f.content = g.content →
       file_hash hash (some f) = file_hash hash (some g)) := by
  have key : ∀ f : DiskFile,
      file_hash hash (some f) = some (hash f.content) := by
    intro f
    simp only [file_hash, chunks4096, foldl_updateHasher, List.nil_append,
      chunksAux_join f.content.length f.content (Nat.le_refl _)]
  refine ⟨fun f => key f, fun f g hfg => ?_⟩
  rw [key f, key g, hfg]

/-- Witness for C5: a digest function and two concrete files with
equal content but different mtime and mode. -/
theorem file_hash_stream_agrees_witness :
    ([1, 2, 3] : List Nat) = [1, 2, 3] ∧
    file_hash List.length (some ⟨[1, 2, 3], 10, 644⟩) =
      file_hash List.length (some ⟨[1, 2, 3], 99, 600⟩) :=
  ⟨rfl,
   (file_hash_stream_agrees_with_memory_hash List.length).2
     ⟨[1, 2, 3], 10, 644⟩ ⟨[1, 2, 3], 99, 600⟩ rfl⟩

theorem foldl_pushPoint (ps : List Point) :
    ∀ b : List Point, b.length ≤ 50 →
      List.foldl pushPoint b ps =
        (b ++ ps).drop (b.length + ps.length - 50) := by
  induction ps with
  | nil =>
    intro b h
    simp [Nat.sub_eq_zero_of_le h]
  | cons p ps ih =>
    intro b h
    rcases Nat.lt_or_ge b.length 50 with hlt | hge
    · have hpush : pushPoint b p = b ++ [p] := by
        simp only [pushPoint, MAX_POINTS, List.length_append,
          List.length_cons, List.length_nil]
        rw [if_neg (by omega)]
      have hlen : (b ++ [p]).length ≤ 50 := by
        simp only [List.length_append, List.length_cons, List.length_nil]
        omega
      rw [List.foldl_cons, hpush, ih _ hlen]
      simp only [List.length_append, List.length_cons, List.length_nil,
        List.append_assoc, List.singleton_append]
      congr 1
      omega
    · have hb : b.length = 50 := Nat.le_antisymm h hge
      have hpush : pushPoint b p = (b ++ [p]).drop 1 := by
        simp only [pushPoint, MAX_POINTS, List.length_append,
          List.length_cons, List.length_nil]
        rw [if_pos (by omega)]
      have hlen : ((b ++ [p]).drop 1).length ≤ 50 := by
        simp only [List.length_drop, List.length_append, List.length_cons,
          List.length_nil]
        omega
      rw [List.foldl_cons, hpush, ih _ hlen]
      have h1 : (1 : Nat) ≤ (b ++ [p]).length := by
        simp only [List.length_append, List.length_cons, List.length_nil]
        omega
      have hdrop : (b ++ [p]).drop 1 ++ ps = ((b ++ [p]) ++ ps).drop 1 :=
        (List.drop_append_of_le_length h1).symm
      rw [hdrop, List.drop_drop]
      simp only [List.length_drop, List.length_append, List.length_cons,
        List.length_nil, List.append_assoc, List.singleton_append]
      congr 1
      omega

/-- Claim C6: a series buffer never exceeds `MAX_POINTS` (50) entries
after an ingest step, and ingesting 55 points into an empty buffer
leaves exactly the 50 most recent points in arrival order (the 5
oldest evicted from the head). -/
theorem seriesBuffer_bounded_fifo :
    (∀ (b : List Point) (p : Point),
       b.length ≤ MAX_POINTS → (pushPoint b p).length ≤ MAX_POINTS) ∧
    (∀ ps : List Point, ps.length = 55 →
       List.foldl pushPoint [] ps = ps.drop 5) := by
  constructor
  · intro b p h
    simp only [MAX_POINTS] at h ⊢
    simp only [pushPoint, MAX_POINTS]
    split
    · simp only [List.length_drop, List.length_append, List.length_cons,
        List.length_nil]
      omega
    · next hle =>
      simp only [List.length_append, List.length_cons, List.length_nil] at hle ⊢
      omega
  · intro ps h
    rw [foldl_pushPoint ps [] (by simp)]
    simp [h]

/-- Claim C7: with initial backoff 1 and 5 total attempts, a connector
whose first five attempts all fail sleeps exactly 1, 2, 4, 8 seconds
before attempts 2 to 5, makes exactly 5 attempts (no sixth), returns
unconnected, and the dashboard `__main__` block still starts the WSGI
server (degraded mode) instead of terminating. -/
theorem connect_retry_backoff_sequence (succ : Nat → Bool)
    (h : ∀ i, i < 5 → succ i = false) :
    connect_mqtt_with_retry succ = (false, [1, 2, 4, 8], 5) ∧
    DashAct.serveForever ∈ dashboardMain (connect_mqtt_with_retry succ).1 := by
  have h0 := h 0 (by omega)
  have h1 := h 1 (by omega)
  have h2 := h 2 (by omega)
  have h3 := h 3 (by omega)
  have h4 := h 4 (by omega)
  have key : connect_mqtt_with_retry succ = (false, [1, 2, 4, 8], 5) := by
    simp [connect_mqtt_with_retry, connectLoop, h0, h1, h2, h3, h4]
  refine ⟨key, ?_⟩
  rw [key]
  simp [dashboardMain]

/-- Witness for C7: the connector that always fails. -/
theorem connect_retry_backoff_sequence_witness :
    (∀ i, i < 5 → (fun _ : Nat => false) i = false) ∧
    connect_mqtt_with_retry (fun _ => false) = (false, [1, 2, 4, 8], 5) :=
  ⟨fun _ _ => rfl,
   (connect_retry_backoff_sequence (fun _ => false) (fun _ _ => rfl)).1⟩

/-- Claim C4: `update_file_if_changed` reports a change exactly when
the fingerprint of the rendered candidate differs from the fingerprint
of the destination (for any injective digest; a missing destination
has fingerprint `none`, distinct from every digest, and always counts
as changed); on a change the destination holds the rendered content
with owner root and mode 644, and on no change the state is untouched. -/
theorem update_file_if_changed_contract {D : Type} (hash : Str → D)
    (hinj : Function.Injective hash) (cfg : Config) (tname dest : String)
    (st : SysState) :
    ((update_file_if_changed cfg tname dest st).2.2 = true ↔
       Option.map hash (alGet st.files dest) ≠
         some (hash (Str.rendered tname cfg))) ∧
    (alGet st.files dest = none →
       (update_file_if_changed cfg tname dest st).2.2 = true) ∧
    ((update_file_if_changed cfg tname dest st).2.2 = true →
       alGet (update_file_if_changed cfg tname dest st).1.files dest =
           some (Str.rendered tname cfg) ∧
       alGet (update_file_if_changed cfg tname dest st).1.owners dest =
           some "root" ∧
       alGet (update_file_if_changed cfg tname dest st).1.modes dest =
           some "644") ∧
    ((update_file_if_changed cfg tname dest st).2.2 = false →
       (update_file_if_changed cfg tname dest st).1 = st) := by
  by_cases hc : alGet st.files dest = some (Str.rendered tname cfg)
  · refine ⟨?_, ?_, ?_, ?_⟩
    · simp [update_file_if_changed, hc]
    · intro hnone
      rw [hnone] at hc
      exact absurd hc (by simp)
    · intro htrue
      rw [show (update_file_if_changed cfg tname dest st).2.2 = false by
        simp [update_file_if_changed, hc]] at htrue
      exact absurd htrue (by simp)
    · intro _
      simp [update_file_if_changed, hc]
  · have hne : Option.map hash (alGet st.files dest) ≠
        some (hash (Str.rendered tname cfg)) := by
      intro heq
      cases hval : alGet st.files dest with
      | none => rw [hval] at heq; simp at heq
      | some x =>
        rw [hval] at heq
        simp only [Option.map] at heq
        have hx := hinj (Option.some.inj heq)
        exact hc (by rw [hval, hx])
    refine ⟨?_, ?_, ?_, ?_⟩
    · simp [update_file_if_changed, hc, hne]
    · intro _
      simp [update_file_if_changed, hc]
    · intro _
      simp [update_file_if_changed, hc]
    · intro hfalse
      rw [show (update_file_if_changed cfg tname dest st).2.2 = true by
        simp [update_file_if_changed, hc]] at hfalse
      exact absurd hfalse (by simp)

/-- Witness for C4: the identity digest on a machine with no
destination file. -/
theorem update_file_if_changed_contract_witness :
    Function.Injective (fun s : Str => s) ∧
    alGet stEmpty.files mosqConfPath = none ∧
    (update_file_if_changed cfg0 "mosquitto.conf.j2" mosqConfPath
        stEmpty).2.2 = true :=
  ⟨fun _ _ h => h, rfl,
   (update_file_if_changed_contract (fun s : Str => s) (fun _ _ h => h)
       cfg0 "mosquitto.conf.j2" mosqConfPath stEmpty).2.1 rfl⟩

theorem ingestLoop_events_mutate (ts : PyVal) :
    ∀ (l : List (String × PyVal)) (store : Store) (e : Ev),
      e ∈ (ingestLoop ts l store).2.1 → ∃ k, e = Ev.mutate k := by
  intro l
  induction l with
  | nil =>
    intro store e he
    simp [ingestLoop] at he
  | cons kv rest ih =>
    intro store e he
    obtain ⟨k, v⟩ := kv
    by_cases hk : k ∈ recognizedKeys
    · cases hv : pyFloat v with
      | some x =>
        simp only [ingestLoop, if_pos hk, hv, List.mem_cons] at he
        rcases he with rfl | he
        · exact ⟨k, rfl⟩
        · exact ih _ e he
      | none =>
        simp only [ingestLoop, if_pos hk, hv] at he
        simp at he
    · simp only [ingestLoop, if_neg hk] at he
      exact ih _ e he

theorem lockHeldAtEmit_append_mutates :
    ∀ evs : List Ev, (∀ e ∈ evs, ∃ k, e = Ev.mutate k) →
      ∀ (d : Nat) (rest : List Ev),
        lockHeldAtEmit d (evs ++ rest) = lockHeldAtEmit d rest := by
  intro evs
  induction evs with
  | nil => intro _ d rest; simp
  | cons e evs ih =>
    intro h d rest
    obtain ⟨k, rfl⟩ := h e (List.mem_cons_self e evs)
    simp only [List.cons_append, lockHeldAtEmit]
    exact ih (fun e' he' => h e' (List.mem_cons_of_mem _ he')) d rest

/-- Counterexample for C8: a concrete well-formed telemetry message
for which the broadcast to observers happens while the data lock is
held (the `sio.emit` call is inside the `with data_lock` block), where
the claim says no observer notification occurs while the lock is
held. -/
theorem on_message_emit_under_lock_counterexample :
    Ev.emitUpdate ∈ (on_message []
        (Msg.dict [("temperature", PyVal.num 3),
                   ("timestamp", PyVal.num 7)])).2 ∧
    emitWhileLocked (on_message []
        (Msg.dict [("temperature", PyVal.num 3),
                   ("timestamp", PyVal.num 7)])).2 = true := by
  constructor
  · decide
  · decide

theorem on_message_snd_dict (store : Store)
    (entries : List (String × PyVal)) :
    (on_message store (Msg.dict entries)).2 =
      Ev.acquire ::
        (ingestLoop ((alGet entries "timestamp").getD (PyVal.num 0))
            entries store).2.1 ++
          (if (ingestLoop ((alGet entries "timestamp").getD (PyVal.num 0))
                entries store).2.2
           then [Ev.release, Ev.printErr]
           else [Ev.emitUpdate, Ev.release]) := by
  simp only [on_message]
  split
  · rfl
  · rfl

/-- Claim C8 (amended): whenever the ingestion callback broadcasts at
all, the broadcast happens while the exclusive lock is held — the emit
is inside the locked region, not outside it. -/
theorem on_message_broadcast_under_lock (store : Store) (msg : Msg)
    (h : Ev.emitUpdate ∈ (on_message store msg).2) :
    emitWhileLocked (on_message store msg).2 = true := by
  cases msg with
  | badJson => simp [on_message] at h
  | nonDict => simp [on_message] at h
  | dict entries =>
    have hmut := ingestLoop_events_mutate
      ((alGet entries "timestamp").getD (PyVal.num 0)) entries store
    rw [on_message_snd_dict] at h ⊢
    cases herr : (ingestLoop ((alGet entries "timestamp").getD (PyVal.num 0))
        entries store).2.2 with
    | true =>
      rw [herr] at h
      simp at h
      obtain ⟨k, hk⟩ := hmut _ h
      exact absurd hk (by simp)
    | false =>
      simp only [Bool.false_eq_true, if_false, emitWhileLocked,
        List.cons_append, lockHeldAtEmit, List.append_eq]
      rw [lockHeldAtEmit_append_mutates _ (fun e he => hmut e he) (0 + 1)
        [Ev.emitUpdate, Ev.release]]
      simp [lockHeldAtEmit]

/-- Witness for C8 (amended): the counterexample message broadcasts. -/
theorem on_message_broadcast_under_lock_witness :
    Ev.emitUpdate ∈ (on_message []
        (Msg.dict [("distance", PyVal.num 4)])).2 ∧
    emitWhileLocked (on_message []
        (Msg.dict [("distance", PyVal.num 4)])).2 = true :=
  ⟨by decide,
   on_message_broadcast_under_lock [] (Msg.dict [("distance", PyVal.num 4)])
     (by decide)⟩

theorem mem_pushPoint (b : List Point) (p q : Point)
    (h : q ∈ pushPoint b p) : q ∈ b ∨ q = p := by
  simp only [pushPoint] at h
  split at h
  · have hm := List.mem_of_mem_drop h
    simpa using hm
  · simpa using h

theorem ingestLoop_frame (ts : PyVal) :
    ∀ (l : List (String × PyVal)) (store : Store) (k : String),
      k ∉ recognizedKeys →
      alGet (ingestLoop ts l store).1 k = alGet store k := by
  intro l
  induction l with
  | nil => intro store k _; simp [ingestLoop]
  | cons kv rest ih =>
    intro store k hk
    obtain ⟨k1, v⟩ := kv
    by_cases h1 : k1 ∈ recognizedKeys
    · cases hv : pyFloat v with
      | some x =>
        simp only [ingestLoop, if_pos h1, hv]
        rw [ih _ k hk]
        have hne : ¬ k1 = k := fun he => hk (he ▸ h1)
        simp [storeAppend, hne]
      | none => simp [ingestLoop, if_pos h1, hv]
    · simp only [ingestLoop, if_neg h1]
      exact ih _ k hk

theorem ingestLoop_points (ts : PyVal) :
    ∀ (l : List (String × PyVal)) (store : Store) (k : String) (pt : Point),
      pt ∈ (alGet (ingestLoop ts l store).1 k).getD [] →
      pt ∈ (alGet store k).getD [] ∨ pt.ts = ts := by
  intro l
  induction l with
  | nil =>
    intro store k pt h
    simp only [ingestLoop] at h
    exact Or.inl h
  | cons kv rest ih =>
    intro store k pt h
    obtain ⟨k1, v⟩ := kv
    by_cases h1 : k1 ∈ recognizedKeys
    · cases hv : pyFloat v with
      | some x =>
        simp only [ingestLoop, if_pos h1, hv] at h
        rcases ih _ k pt h with hmem | hts
        · by_cases hkk : k1 = k
          · subst hkk
            simp only [storeAppend, alSet_def, alGet_cons, if_pos rfl,
              Option.getD_some] at hmem
            rcases mem_pushPoint _ _ _ hmem with hb | rfl
            · exact Or.inl hb
            · exact Or.inr rfl
          · simp only [storeAppend, alSet_def, alGet_cons,
              if_neg hkk] at hmem
            exact Or.inl hmem
        · exact Or.inr hts
      | none =>
        simp only [ingestLoop, if_pos h1, hv] at h
        exact Or.inl h
    · simp only [ingestLoop, if_neg h1] at h
      exact ih _ _ _ h

theorem on_message_fst_dict (store : Store)
    (entries : List (String × PyVal)) :
    (on_message store (Msg.dict entries)).1 =
      (ingestLoop ((alGet entries "timestamp").getD (PyVal.num 0))
          entries store).1 := by
  simp only [on_message]
  split <;> rfl

/-- Claim C10: the ingestion handler catches every error — an invalid
JSON payload (or a non-object one) leaves the store completely
unchanged and only prints; keys outside the six recognized metrics are
never touched in the store; and when the payload has no timestamp
field, every point the call adds carries timestamp 0. -/
theorem on_message_error_handling (store : Store) :
    (on_message store Msg.badJson = (store, [Ev.printErr]) ∧
     on_message store Msg.nonDict = (store, [Ev.printErr])) ∧
    (∀ (msg : Msg) (k : String), k ∉ recognizedKeys →
       alGet (on_message store msg).1 k = alGet store k) ∧
    (∀ entries : List (String × PyVal),
       alGet entries "timestamp" = none →
       ∀ (k : String) (pt : Point),
         pt ∈ (alGet (on_message store (Msg.dict entries)).1 k).getD [] →
         pt ∈ (alGet store k).getD [] ∨ pt.ts = PyVal.num 0) := by
  refine ⟨⟨rfl, rfl⟩, ?_, ?_⟩
  · intro msg k hk
    cases msg with
    | badJson => rfl
    | nonDict => rfl
    | dict entries =>
      rw [on_message_fst_dict]
      exact ingestLoop_frame _ entries store k hk
  · intro entries hts k pt h
    rw [on_message_fst_dict, hts] at h
    exact ingestLoop_points (PyVal.num 0) entries store k pt h

/-- Witness for C10: an unrecognized key is not stored, and a
timestamp-less message stores its point with timestamp 0. -/
theorem on_message_error_handling_witness :
    ("humidity" ∉ recognizedKeys ∧
     alGet (on_message [] (Msg.dict [("humidity", PyVal.num 1)])).1
         "humidity" = alGet ([] : Store) "humidity") ∧
    (alGet [("temperature", PyVal.num 3)] "timestamp" = none ∧
     (Point.mk (PyVal.num 0) 3 ∈
         (alGet ([] : Store) "temperature").getD [] ∨
       (Point.mk (PyVal.num 0) 3).ts = PyVal.num 0)) :=
  ⟨⟨by decide,
    (on_message_error_handling []).2.1 (Msg.dict [("humidity", PyVal.num 1)])
      "humidity" (by decide)⟩,
   ⟨rfl,
    (on_message_error_handling []).2.2 [("temperature", PyVal.num 3)] rfl
      "temperature" (Point.mk (PyVal.num 0) 3) (by decide)⟩⟩

/-- Witness for C6: 55 concrete points. -/
theorem seriesBuffer_bounded_fifo_witness :
    ((List.range 55).map fun i => Point.mk (PyVal.num (Int.ofNat i)) 0).length = 55 ∧
    List.foldl pushPoint []
        ((List.range 55).map fun i => Point.mk (PyVal.num (Int.ofNat i)) 0) =
      ((List.range 55).map fun i => Point.mk (PyVal.num (Int.ofNat i)) 0).drop 5 :=
  ⟨by rw [List.length_map, List.length_range],
   seriesBuffer_bounded_fifo.2
     ((List.range 55).map fun i => Point.mk (PyVal.num (Int.ofNat i)) 0)
     (by rw [List.length_map, List.length_range])⟩

@[simp] theorem ite_pair_fst {α β : Type} (c : Prop) [Decidable c]
    (a b : α × β) : (if c then a else b).1 = if c then a.1 else b.1 := by
  split <;> rfl

@[simp] theorem ite_pair_snd {α β : Type} (c : Prop) [Decidable c]
    (a b : α × β) : (if c then a else b).2 = if c then a.2 else b.2 := by
  split <;> rfl

@[simp] theorem ite_state_files (c : Prop) [Decidable c]
    (a b : SysState) : (if c then a else b).files =
      if c then a.files else b.files := by
  split <;> rfl

@[simp] theorem ite_state_owners (c : Prop) [Decidable c]
    (a b : SysState) : (if c then a else b).owners =
      if c then a.owners else b.owners := by
  split <;> rfl

@[simp] theorem ite_state_modes (c : Prop) [Decidable c]
    (a b : SysState) : (if c then a else b).modes =
      if c then a.modes else b.modes := by
  split <;> rfl

@[simp] theorem ite_state_pkgs (c : Prop) [Decidable c]
    (a b : SysState) : (if c then a else b).pkgs =
      if c then a.pkgs else b.pkgs := by
  split <;> rfl

@[simp] theorem ite_state_enabled (c : Prop) [Decidable c]
    (a b : SysState) : (if c then a else b).enabled =
      if c then a.enabled else b.enabled := by
  split <;> rfl

@[simp] theorem ite_state_running (c : Prop) [Decidable c]
    (a b : SysState) : (if c then a else b).running =
      if c then a.running else b.running := by
  split <;> rfl

@[simp] theorem ite_state_nodeRed (c : Prop) [Decidable c]
    (a b : SysState) : (if c then a else b).nodeRed =
      if c then a.nodeRed else b.nodeRed := by
  split <;> rfl

@[simp] theorem ite_state_vmBinary (c : Prop) [Decidable c]
    (a b : SysState) : (if c then a else b).vmBinary =
      if c then a.vmBinary else b.vmBinary := by
  split <;> rfl

@[simp] theorem ite_state_vmUser (c : Prop) [Decidable c]
    (a b : SysState) : (if c then a else b).vmUser =
      if c then a.vmUser else b.vmUser := by
  split <;> rfl

@[simp] theorem ite_state_hostnameSet (c : Prop) [Decidable c]
    (a b : SysState) : (if c then a else b).hostnameSet =
      if c then a.hostnameSet else b.hostnameSet := by
  split <;> rfl

@[simp] theorem ite_state_ipForward (c : Prop) [Decidable c]
    (a b : SysState) : (if c then a else b).ipForward =
      if c then a.ipForward else b.ipForward := by
  split <;> rfl

/-- A machine on which the dashboard subsystem is fully converged:
both of its materialized files match the desired content and the
service is enabled and running. -/
def stDashConverged : SysState :=
  { stEmpty with
      running := ["sysohub-dashboard"],
      enabled := ["sysohub-dashboard"],
      files := [(flaskAppPath, Str.rendered "flask_app.py" cfg0),
                (dashUnitPath, Str.dashUnit)] }

/-- Counterexample for C1: on a machine where the dashboard subsystem
detects no configuration change (both changed flags false) and the
service is running, the installer nevertheless issues a restart, while
the claimed tri-state policy prescribes no command at all. -/
theorem ensure_running_tristate_counterexample :
    (install_dashboard cfg0 stDashConverged).2.2.1 = false ∧
    (install_dashboard cfg0 stDashConverged).2.2.2 = false ∧
    Act.restartSvc "sysohub-dashboard" ∈
      (install_dashboard cfg0 stDashConverged).2.1 ∧
    triStateSpec "sysohub-dashboard" true false = [] := by
  refine ⟨by decide, by decide, by decide, rfl⟩

/-- Claim C1 (amended): the ensure-running decisions the installers
actually implement.  A stopped service is started by every subsystem
(matching the claimed tri-state start arm).  A running service with no
detected change is left alone by the WiFi AP, Mosquitto and
VictoriaMetrics blocks but restarted by the Node-RED and dashboard
blocks.  A running service with a detected change receives a `start`
command (not a restart) from the WiFi AP and Mosquitto blocks, nothing
from the VictoriaMetrics block, and a restart from the Node-RED and
dashboard blocks (which never consult the change flag). -/
theorem ensure_running_decisions (svc : String) (st : SysState)
    (changed : Bool) :
    (svc ∉ st.running →
       (ensure_running_skip_unchanged svc changed st).2 = [Act.startSvc svc] ∧
       (ensure_running_plain svc st).2 = [Act.startSvc svc] ∧
       (ensure_running_restart_always svc st).2 = [Act.startSvc svc] ∧
       triStateSpec svc false changed = [Act.startSvc svc]) ∧
    (svc ∈ st.running → changed = false →
       (ensure_running_skip_unchanged svc changed st).2 = [] ∧
       (ensure_running_plain svc st).2 = [] ∧
       (ensure_running_restart_always svc st).2 = [Act.restartSvc svc]) ∧
    (svc ∈ st.running → changed = true →
       (ensure_running_skip_unchanged svc changed st).2 = [Act.startSvc svc] ∧
       (ensure_running_plain svc st).2 = [] ∧
       (ensure_running_restart_always svc st).2 = [Act.restartSvc svc]) := by
  refine ⟨?_, ?_, ?_⟩
  · intro hnr
    simp [ensure_running_skip_unchanged, ensure_running_plain,
      ensure_running_restart_always, triStateSpec, hnr]
  · intro hr hc
    subst hc
    simp [ensure_running_skip_unchanged, ensure_running_plain,
      ensure_running_restart_always, hr]
  · intro hr hc
    subst hc
    simp [ensure_running_skip_unchanged, ensure_running_plain,
      ensure_running_restart_always, hr]

/-- Witness for C1 (amended): a stopped service is started; a running
service with no change is restarted by the dashboard-style block. -/
theorem ensure_running_decisions_witness :
    ("mosquitto" ∉ stEmpty.running ∧
     (ensure_running_restart_always "mosquitto" stEmpty).2 =
       [Act.startSvc "mosquitto"]) ∧
    ("sysohub-dashboard" ∈ stDashConverged.running ∧ (false : Bool) = false ∧
     (ensure_running_restart_always "sysohub-dashboard" stDashConverged).2 =
       [Act.restartSvc "sysohub-dashboard"]) :=
  ⟨⟨by decide,
    ((ensure_running_decisions "mosquitto" stEmpty false).1
        (by decide)).2.2.1⟩,
   ⟨by decide, rfl,
    (((ensure_running_decisions "sysohub-dashboard" stDashConverged
          false).2.1 (by decide)) rfl).2.2⟩⟩

/-- Counterexample for C9: with the configuration file absent, `setup`
still mutates permissions (the `chown`/`chmod` of its own script)
before the configuration load aborts the run, so the abort does not
happen before every mutation. -/
theorem setup_mutates_before_config_counterexample :
    (setup none stEmpty).2.1 =
      [Act.chownFile scriptPath sysUser, Act.chmodFile scriptPath "755",
       Act.abortConfigNotFound] ∧
    (setup none stEmpty).1 ≠ stEmpty := by
  constructor
  · rfl
  · decide

/-- Claim C9 (amended): when the configuration file is absent, the
`setup` operation fails with the config-not-found error and performs
no mutation at all other than setting the owner and mode of its own
script file (which it does before attempting to load the
configuration): files, packages, services, and every other state
component are untouched. -/
theorem setup_config_missing_behavior (st : SysState) :
    (setup none st).2.2 = false ∧
    (setup none st).2.1 =
      [Act.chownFile scriptPath sysUser, Act.chmodFile scriptPath "755",
       Act.abortConfigNotFound] ∧
    (setup none st).1.files = st.files ∧
    (setup none st).1.pkgs = st.pkgs ∧
    (setup none st).1.enabled = st.enabled ∧
    (setup none st).1.running = st.running ∧
    (setup none st).1.nodeRed = st.nodeRed ∧
    (setup none st).1.vmBinary = st.vmBinary ∧
    (setup none st).1.vmUser = st.vmUser ∧
    (setup none st).1.hostnameSet = st.hostnameSet ∧
    (setup none st).1.ipForward = st.ipForward ∧
    (setup none st).1.owners = alSet st.owners scriptPath sysUser ∧
    (setup none st).1.modes = alSet st.modes scriptPath "755" :=
  ⟨rfl, rfl, rfl, rfl, rfl, rfl, rfl, rfl, rfl, rfl, rfl, rfl, rfl⟩

/-- A machine on which the Mosquitto subsystem's template-materialized
config matches the desired content, the package is installed, and the
service is enabled and running — but the password file is absent. -/
def stMosqConverged : SysState :=
  { stEmpty with
      pkgs := ["mosquitto"],
      enabled := ["mosquitto"],
      running := ["mosquitto"],
      files := [(mosqConfPath, Str.rendered "mosquitto.conf.j2" cfg0)] }

/-- Counterexample for C3: a converge of the Mosquitto subsystem that
rewrites a managed config file (the password file, via `tee`) while
reporting `configs_changed = false` and issuing no start or restart —
so the aggregate does not cover every managed file of the
subsystem. -/
theorem mosquitto_aggregate_counterexample :
    (install_mosquitto cfg0 stMosqConverged).2.2 = false ∧
    alGet (install_mosquitto cfg0 stMosqConverged).1.files mosqPasswdPath ≠
      alGet stMosqConverged.files mosqPasswdPath ∧
    Act.teeFile mosqPasswdPath
        (Str.newline (Str.passwdLine "plantomioX1" "plantomioX1Pass")) ∈
      (install_mosquitto cfg0 stMosqConverged).2.1 ∧
    Act.startSvc "mosquitto" ∉ (install_mosquitto cfg0 stMosqConverged).2.1 ∧
    Act.restartSvc "mosquitto" ∉
      (install_mosquitto cfg0 stMosqConverged).2.1 := by
  refine ⟨by decide, by decide, by decide, by decide, by decide⟩

set_option maxRecDepth 4000 in
/-- Counterexample for C2: converging a fresh machine twice with the
same desired state still restarts the dashboard service on the second
run and still reports the Node-RED unit file as changed (its cleanup
deletes the unit file each run), so the second converge is neither
change free nor restart free. -/
theorem converge_not_idempotent_counterexample :
    Act.restartSvc "sysohub-dashboard" ∈
      (converge cfg0 (converge cfg0 stEmpty).1).2.1 ∧
    (converge cfg0 (converge cfg0 stEmpty).1).2.2.noderedUnitChanged =
      true := by
  constructor
  · decide
  · decide

set_option maxHeartbeats 2000000 in
set_option maxRecDepth 4000 in
/-- Claim C2 (amended): for every desired state, a second converge of
a freshly converged machine reports no change for every
fingerprint-compared file that survives a run (the WiFi AP configs,
`mosquitto.conf`, the VictoriaMetrics yml and unit, `flask_app.py`,
the dashboard unit) — but it is not idempotent: the Node-RED unit file
is reported changed (the unconditional cleanup deleted it), Node-RED
is reinstalled from scratch, the WiFi services and Node-RED are
stopped and started again, the dashboard service is unconditionally
restarted, and the `tee`-written `/etc/default/hostapd` is rewritten
(its stored bytes carry a trailing newline the compared candidate
lacks). -/
theorem converge_second_run_behavior (cfg : Config) :
    (converge cfg (converge cfg stEmpty).1).2.2.wifiChanged = false ∧
    (converge cfg (converge cfg stEmpty).1).2.2.mosqChanged = false ∧
    (converge cfg (converge cfg stEmpty).1).2.2.vmYmlChanged = false ∧
    (converge cfg (converge cfg stEmpty).1).2.2.vmUnitChanged = false ∧
    (converge cfg (converge cfg stEmpty).1).2.2.flaskChanged = false ∧
    (converge cfg (converge cfg stEmpty).1).2.2.dashUnitChanged = false ∧
    (converge cfg (converge cfg stEmpty).1).2.2.noderedUnitChanged = true ∧
    Act.restartSvc "sysohub-dashboard" ∈
      (converge cfg (converge cfg stEmpty).1).2.1 ∧
    Act.runNodeRedInstaller ∈ (converge cfg (converge cfg stEmpty).1).2.1 ∧
    Act.stopSvc "nodered" ∈ (converge cfg (converge cfg stEmpty).1).2.1 ∧
    Act.startSvc "hostapd" ∈ (converge cfg (converge cfg stEmpty).1).2.1 ∧
    Act.teeFile defaultHostapdPath (Str.newline Str.daemonConfLine) ∈
      (converge cfg (converge cfg stEmpty).1).2.1 := by
  simp [converge, setup_wifi_ap, install_mosquitto, install_victoria_metrics,
    install_node_red, install_dashboard, update_file_if_changed, ensure_pkg,
    unmask_stop, ensure_enabled, ensure_running_skip_unchanged,
    ensure_running_plain, ensure_running_restart_always, stEmpty, addS, remS,
    alRemove, sysUser, scriptPath, dhcpcdPath, hostapdConfPath,
    dnsmasqConfPath, defaultHostapdPath, mosqConfPath, mosqPasswdPath,
    vmBinaryPath, vmYmlPath, vmUnitPath, noderedUnitPath, nodeRedDirPath,
    flowsPath, flaskAppPath, indexHtmlPath, dashUnitPath]

theorem update_flag_iff (cfg : Config) (t dest : String) (st : SysState) :
    (update_file_if_changed cfg t dest st).2.2 = true ↔
      alGet st.files dest ≠ some (Str.rendered t cfg) := by
  by_cases hc : alGet st.files dest = some (Str.rendered t cfg)
  · simp [update_file_if_changed, hc]
  · simp [update_file_if_changed, hc]

theorem update_files_other (cfg : Config) (t dest q : String)
    (st : SysState) (h : ¬ dest = q) :
    alGet (update_file_if_changed cfg t dest st).1.files q =
      alGet st.files q := by
  by_cases hc : alGet st.files dest = some (Str.rendered t cfg)
  · simp [update_file_if_changed, hc]
  · simp [update_file_if_changed, hc, h]

/-- Claim C3 (amended): each subsystem's aggregated changed flag is
the OR of the changed results of its template-materialized config
files only — `mosquitto.conf` for Mosquitto; the dhcpcd, hostapd and
dnsmasq configs for the WiFi AP.  The `tee`-written files (the
Mosquitto password file, `/etc/default/hostapd`) and the hostname are
not part of the aggregate. -/
theorem any_changed_aggregates_template_files (cfg : Config)
    (st : SysState) :
    ((install_mosquitto cfg st).2.2 = true ↔
       alGet st.files mosqConfPath ≠
         some (Str.rendered "mosquitto.conf.j2" cfg)) ∧
    ((setup_wifi_ap cfg st).2.2 = true ↔
       (alGet st.files dhcpcdPath ≠
          some (Str.rendered "dhcpcd.conf.j2" cfg) ∨
        alGet st.files hostapdConfPath ≠
          some (Str.rendered "hostapd.conf.j2" cfg) ∨
        alGet st.files dnsmasqConfPath ≠
          some (Str.rendered "dnsmasq.conf.j2" cfg))) := by
  constructor
  · have hflag : (install_mosquitto cfg st).2.2 =
        (update_file_if_changed cfg "mosquitto.conf.j2" mosqConfPath
          (if "mosquitto" ∈ st.pkgs then (st, ([] : List Act))
           else ({ st with
                   pkgs := addS (addS st.pkgs "mosquitto")
                     "mosquitto-clients" },
                 [Act.aptInstall "mosquitto",
                  Act.aptInstall "mosquitto-clients"])).1).2.2 := rfl
    have hpre : (if "mosquitto" ∈ st.pkgs then (st, ([] : List Act))
        else ({ st with
                pkgs := addS (addS st.pkgs "mosquitto")
                  "mosquitto-clients" },
              [Act.aptInstall "mosquitto",
               Act.aptInstall "mosquitto-clients"])).1.files = st.files := by
      split <;> rfl
    rw [hflag, update_flag_iff, hpre]
  · have hpre : (unmask_stop "avahi-daemon"
        (unmask_stop "dnsmasq"
          (unmask_stop "hostapd"
            (ensure_pkg "avahi-daemon"
              (ensure_pkg "dnsmasq"
                (ensure_pkg "hostapd" st).1).1).1).1).1).1.files =
        st.files := by
      simp [ensure_pkg, unmask_stop]
    have hflag : (setup_wifi_ap cfg st).2.2 =
        ((update_file_if_changed cfg "dhcpcd.conf.j2" dhcpcdPath
            (unmask_stop "avahi-daemon"
              (unmask_stop "dnsmasq"
                (unmask_stop "hostapd"
                  (ensure_pkg "avahi-daemon"
                    (ensure_pkg "dnsmasq"
                      (ensure_pkg "hostapd" st).1).1).1).1).1).1).2.2 ||
         (update_file_if_changed cfg "hostapd.conf.j2" hostapdConfPath
            (update_file_if_changed cfg "dhcpcd.conf.j2" dhcpcdPath
              (unmask_stop "avahi-daemon"
                (unmask_stop "dnsmasq"
                  (unmask_stop "hostapd"
                    (ensure_pkg "avahi-daemon"
                      (ensure_pkg "dnsmasq"
                        (ensure_pkg "hostapd" st).1).1).1).1).1).1).1).2.2 ||
         (update_file_if_changed cfg "dnsmasq.conf.j2" dnsmasqConfPath
            (update_file_if_changed cfg "hostapd.conf.j2" hostapdConfPath
              (update_file_if_changed cfg "dhcpcd.conf.j2" dhcpcdPath
                (unmask_stop "avahi-daemon"
                  (unmask_stop "dnsmasq"
                    (unmask_stop "hostapd"
                      (ensure_pkg "avahi-daemon"
                        (ensure_pkg "dnsmasq"
                          (ensure_pkg "hostapd"
                            st).1).1).1).1).1).1).1).1).2.2) := rfl
    rw [hflag]
    rw [Bool.or_eq_true, Bool.or_eq_true]
    rw [update_flag_iff, update_flag_iff, update_flag_iff]
    rw [update_files_other cfg "hostapd.conf.j2" hostapdConfPath
      dnsmasqConfPath _ (by decide)]
    rw [update_files_other cfg "dhcpcd.conf.j2" dhcpcdPath
      dnsmasqConfPath _ (by decide)]
    rw [update_files_other cfg "dhcpcd.conf.j2" dhcpcdPath
      hostapdConfPath _ (by decide)]
    rw [hpre]
    tauto
